import Mathlib

/-!
Shallow embedding of the reactor core of the casper-node repository
(`src/reactor.rs`) and the storage configuration checks
(`src/components/storage/config.rs`), together with proofs of the spec
claims about them.

Conventions of the embedding:
* A Rust `Multiple<T>` (a small ordered vector) is a Lean `List T`.
* A Rust future that, when awaited, yields a `Multiple<Ev>` is modelled
  as the inductive `Effect Ev`: `done` is a future that is ready with its
  event collection, `later` marks one suspension point before the rest of
  the computation.  `Effect.await` runs the future to completion.
* Machine integers (`usize`) are `Nat`; the `libc::sysconf` return value
  is an `Int` (it is negative on failure).
* The infinite dispatch loop of `run` is modelled with explicit fuel: a
  result of `none` means the loop is still running (or suspended on an
  empty scheduler) after that many iterations, `some r` means the
  function returned with `r`.
-/

namespace CasperNode

/-- Modelled from the spec: the queue-kind enumeration lives in
`src/reactor/queue_kind.rs`, which is not part of the sources; the spec
requires at minimum a default/regular kind, a network-incoming kind and an
API-request kind, listed here in that order as the declaration order. -/
inductive QueueKind where
  | regular
  | networkIncoming
  | api
deriving DecidableEq, Repr

/-- Declaration order of the queue kinds, used for the scheduler's stable
iteration order. -/
def QueueKind.all : List QueueKind := [.regular, .networkIncoming, .api]

/-- Modelled from the spec: `QueueKind::default()` (its `Default` impl is in
the missing `queue_kind.rs`); the spec names the regular kind as the
default/regular kind. -/
def QueueKind.default : QueueKind := .regular

/-- Modelled from the spec: `crate::effect::Effect` (module `effect` is not
in the sources) is a boxed deferred asynchronous computation that, when
awaited, yields an ordered finite collection of events.  `done evs` is a
future ready with its events; `later e` suspends once and continues as
`e`. -/
inductive Effect (Ev : Type) where
  | done : List Ev → Effect Ev
  | later : Effect Ev → Effect Ev

/-- Awaiting an effect: run it past all suspension points and collect the
events it yields. -/
def Effect.await {Ev : Type} : Effect Ev → List Ev
  | .done evs => evs
  | .later e => e.await

/-- Number of suspension points an effect passes through before completing. -/
def Effect.steps {Ev : Type} : Effect Ev → Nat
  | .done _ => 0
  | .later e => e.steps + 1

/-- Modelled from the spec: `Scheduler<Ev> = WeightedRoundRobin<Ev, QueueKind>`
(`utils::WeightedRoundRobin` is not in the sources).  One FIFO queue per
queue kind, plus the per-kind credit counters of the weighted round-robin
selection. -/
structure Scheduler (Ev : Type) where
  queues : QueueKind → List Ev
  credits : QueueKind → Nat

/-- Modelled from the spec: `Scheduler::new(weights)` — all queues start
empty, each credit counter is initialized to the kind's weight. -/
def Scheduler.new {Ev : Type} (weights : QueueKind → Nat) : Scheduler Ev :=
  { queues := fun _ => [], credits := weights }

/-- Modelled from the spec: `push(event, kind)` appends the event to the
kind's queue; it never rejects. -/
def Scheduler.push {Ev : Type} (s : Scheduler Ev) (event : Ev) (kind : QueueKind) :
    Scheduler Ev :=
  { s with queues := Function.update s.queues kind (s.queues kind ++ [event]) }

/-- One selection pass of the weighted round-robin: iterate kinds in
declaration order and serve the first non-empty queue with positive
credit, decrementing it. -/
def Scheduler.popTry {Ev : Type} (s : Scheduler Ev) :
    List QueueKind → Option (Ev × QueueKind × Scheduler Ev)
  | [] => none
  | k :: ks =>
    match s.queues k with
    | [] => s.popTry ks
    | ev :: rest =>
      if s.credits k = 0 then s.popTry ks
      else some (ev, k,
        { queues := Function.update s.queues k rest,
          credits := Function.update s.credits k (s.credits k - 1) })

/-- Refill every credit counter from the weight table. -/
def Scheduler.refill {Ev : Type} (weights : QueueKind → Nat) (s : Scheduler Ev) :
    Scheduler Ev :=
  { s with credits := weights }

/-- All queues of the scheduler are empty. -/
def Scheduler.isEmpty {Ev : Type} (s : Scheduler Ev) : Bool :=
  QueueKind.all.all fun k => (s.queues k).isEmpty

/-- Modelled from the spec: `pop()` — serve the first non-empty queue with
positive credit in declaration order; when every non-empty queue has
exhausted its credits, refill all credits from the weights and repeat.
`none` models the suspension of `pop` on an all-empty scheduler. -/
def Scheduler.pop {Ev : Type} (weights : QueueKind → Nat) (s : Scheduler Ev) :
    Option (Ev × QueueKind × Scheduler Ev) :=
  match s.popTry QueueKind.all with
  | some r => some r
  | none => if s.isEmpty then none else (s.refill weights).popTry QueueKind.all

/-- `process_effects` from `src/reactor.rs`: for each effect, spawn a task
that awaits it and pushes every produced event onto the scheduler under
`QueueKind::default()`.  The spawned tasks are sequenced here; the claims
proved below do not depend on their interleaving. -/
def process_effects {Ev : Type} (scheduler : Scheduler Ev) (effects : List (Effect Ev)) :
    Scheduler Ev :=
  effects.foldl
    (fun s effect => effect.await.foldl (fun s event => s.push event QueueKind.default) s)
    scheduler

/-- `wrap_effect` from `src/reactor.rs`: await the inner effect (every
suspension of the inner future suspends the wrapper) and map `wrap` over
the produced events. -/
def wrap_effect {Ev REv : Type} (wrap : Ev → REv) : Effect Ev → Effect REv
  | .done evs => .done (evs.map wrap)
  | .later e => .later (wrap_effect wrap e)

/-- `wrap_effects` from `src/reactor.rs`: wrap each effect of the
collection. -/
def wrap_effects {Ev REv : Type} (wrap : Ev → REv) (effects : List (Effect Ev)) :
    List (Effect REv) :=
  effects.map (wrap_effect wrap)

/-- `EventQueueHandle` from `src/reactor.rs`: it holds a `&'static`
reference to a leaked scheduler, modelled as the address of that scheduler
in a world of leaked schedulers (`Nat → Scheduler REv`). -/
structure EventQueueHandle where
  addr : Nat
deriving DecidableEq, Repr

/-- `EventQueueHandle::new`. -/
def EventQueueHandle.new (addr : Nat) : EventQueueHandle := ⟨addr⟩

/-- The manual `Clone` impl of `EventQueueHandle`: `EventQueueHandle(self.0)`. -/
def EventQueueHandle.clone (h : EventQueueHandle) : EventQueueHandle := ⟨h.addr⟩

/-- `EventQueueHandle::schedule(event, queue_kind)`:
`self.0.push(event.into(), queue_kind)` — convert the event into the
reactor-wide event type and push it onto the referenced scheduler under
the given kind.  `conv` embeds the `REv: From<Ev>` conversion; the world
maps each leaked scheduler address to its state. -/
def EventQueueHandle.schedule {Ev REv : Type} (h : EventQueueHandle)
    (conv : Ev → REv) (world : Nat → Scheduler REv) (event : Ev) (kind : QueueKind) :
    Nat → Scheduler REv :=
  Function.update world h.addr ((world h.addr).push (conv event) kind)

/-- The `Reactor` trait of `src/reactor.rs`, for a reactor with state type
`St`, associated event type `Ev` and construction-error type `Err`.  The
collaborator configurations and the event-queue handle passed to
`Reactor::new`, and the `EffectBuilder` passed to `dispatch_event` (the
builder only wraps the handle; module `effect` is external), are absorbed
into the abstract `new` and `dispatch_event` values: the claims quantify
over all reactors, hence over all configurations. -/
structure Reactor (St Ev Err : Type) where
  new : Except Err (St × List (Effect Ev))
  dispatch_event : St → Ev → St × List (Effect Ev)

/-- The startup size check of `run`: warn once if
`mem::size_of::<R::Event>() > 16 * mem::size_of::<usize>()`. -/
def oversize_warning_count (event_size usize_size : Nat) : Nat :=
  if 16 * usize_size < event_size then 1 else 0

/-- Observable trace of one (fuel-bounded) execution of `run`: how many
oversize warnings were emitted at startup, how many events the driver
popped, which events it dispatched in order, and whether `run` returned
(`none` while the loop is still running or suspended). -/
structure RunTrace (Ev Err : Type) where
  oversizeWarnings : Nat
  pops : Nat
  dispatched : List Ev
  result : Option (Except Err Unit)
deriving Repr

/-- The steady-state `loop` of `run` in `src/reactor.rs`: pop an event
(suspending while the scheduler is empty), dispatch it, process the
returned effects, and loop.  The body contains no exit: the trace result
stays `none` for every amount of fuel. -/
def run_loop {St Ev Err : Type} (R : Reactor St Ev Err) (weights : QueueKind → Nat)
    (warns : Nat) :
    Nat → St → Scheduler Ev → Nat → List Ev → RunTrace Ev Err
  | 0, _, _, pops, disp => ⟨warns, pops, disp, none⟩
  | fuel + 1, st, sched, pops, disp =>
    match Scheduler.pop weights sched with
    | none => ⟨warns, pops, disp, none⟩
    | some (event, _q, sched') =>
      let out := R.dispatch_event st event
      run_loop R weights warns fuel out.1 (process_effects sched' out.2)
        (pops + 1) (disp ++ [event])

/-- `run` from `src/reactor.rs`: emit the oversize warning if the static
event size exceeds 16 machine words, create and leak the scheduler,
construct the reactor (propagating a construction error with `?`),
process the initial effects and enter the steady-state loop. -/
def run {St Ev Err : Type} (R : Reactor St Ev Err) (event_size usize_size : Nat)
    (weights : QueueKind → Nat) (fuel : Nat) : RunTrace Ev Err :=
  let warns := oversize_warning_count event_size usize_size
  match R.new with
  | .error e => ⟨warns, 0, [], some (.error e)⟩
  | .ok (reactor, initial_effects) =>
    run_loop R weights warns fuel reactor
      (process_effects (Scheduler.new weights) initial_effects) 0 []

/-! ### Storage configuration (`src/components/storage/config.rs`) -/

/-- The storage `Config` (the `path` field is kept as an opaque string; it
plays no role in `check_sizes`). -/
structure StorageConfig where
  path : String
  max_block_store_size : Nat
  max_deploy_store_size : Nat

/-- `get_page_size`: wraps `libc::sysconf(_SC_PAGESIZE)`; a negative
return value becomes an error (the modelled `io::Error` carries no data),
a non-negative one is cast to `usize`. -/
def get_page_size (sysconf_pagesize : Int) : Except Unit Nat :=
  if sysconf_pagesize < 0 then .error () else .ok sysconf_pagesize.toNat

/-- The two warnings `check_sizes` can emit. -/
inductive SizeWarning where
  | maxBlockStoreSize
  | maxDeployStoreSize
deriving DecidableEq, Repr

/-- `Config::check_sizes`: take `get_page_size().unwrap_or(1)` and warn,
in order, for each of the two sizes that is not a multiple of it.  The
emitted warnings are returned as a list. -/
def StorageConfig.check_sizes (cfg : StorageConfig) (sysconf_pagesize : Int) :
    List SizeWarning :=
  let page_size := match get_page_size sysconf_pagesize with
    | .ok p => p
    | .error _ => 1
  (if cfg.max_block_store_size % page_size != 0
    then [SizeWarning.maxBlockStoreSize] else []) ++
  (if cfg.max_deploy_store_size % page_size != 0
    then [SizeWarning.maxDeployStoreSize] else [])

/-! ### A concrete demonstration reactor

A minimal reactor whose event type has an explicit shutdown variant and
whose single initial effect yields that shutdown event; dispatching any
event returns no further effects.  Used to exercise `run` on a concrete
shutdown scenario. -/

/-- Event type of the demonstration reactor, with a shutdown variant. -/
inductive DemoEvent where
  | shutdown
  | other
deriving DecidableEq, Repr

/-- The demonstration reactor: construction succeeds with one initial
effect that yields a shutdown event; dispatch returns no effects. -/
def demoReactor : Reactor Unit DemoEvent Unit :=
  { new := .ok ((), [Effect.done [DemoEvent.shutdown]]),
    dispatch_event := fun s _ => (s, []) }

/-! ### Helper lemmas -/

theorem Scheduler.push_queues_self {Ev : Type} (s : Scheduler Ev) (e : Ev) (k : QueueKind) :
    (s.push e k).queues k = s.queues k ++ [e] := by
  simp [Scheduler.push]

theorem Scheduler.push_queues_ne {Ev : Type} (s : Scheduler Ev) (e : Ev) {k k' : QueueKind}
    (hk : k' ≠ k) : (s.push e k).queues k' = s.queues k' := by
  simp [Scheduler.push, Function.update_noteq hk]

theorem Scheduler.push_credits {Ev : Type} (s : Scheduler Ev) (e : Ev) (k : QueueKind) :
    (s.push e k).credits = s.credits := rfl

/-- The inner loop of `process_effects`: pushing a list of events under the
default kind appends exactly that list to the default queue and changes
nothing else. -/
theorem foldl_push_default {Ev : Type} (l : List Ev) (s : Scheduler Ev) :
    ((l.foldl (fun s event => s.push event QueueKind.default) s).queues QueueKind.default
        = s.queues QueueKind.default ++ l)
    ∧ (∀ k, k ≠ QueueKind.default →
        (l.foldl (fun s event => s.push event QueueKind.default) s).queues k = s.queues k)
    ∧ (l.foldl (fun s event => s.push event QueueKind.default) s).credits = s.credits := by
  induction l generalizing s with
  | nil => simp
  | cons ev tl ih =>
    obtain ⟨h1, h2, h3⟩ := ih (s.push ev QueueKind.default)
    refine ⟨?_, ?_, ?_⟩
    · rw [List.foldl_cons, h1, Scheduler.push_queues_self]
      simp
    · intro k hk
      rw [List.foldl_cons, h2 k hk, Scheduler.push_queues_ne s ev hk]
    · rw [List.foldl_cons, h3, Scheduler.push_credits]

/-- `process_effects` appends the awaited events of all effects, in order,
to the default queue and leaves every other queue and the credits
untouched. -/
theorem process_effects_spec {Ev : Type} (s : Scheduler Ev) (effects : List (Effect Ev)) :
    ((process_effects s effects).queues QueueKind.default
        = s.queues QueueKind.default ++ (effects.map Effect.await).flatten)
    ∧ (∀ k, k ≠ QueueKind.default → (process_effects s effects).queues k = s.queues k)
    ∧ (process_effects s effects).credits = s.credits := by
  induction effects generalizing s with
  | nil => simp [process_effects]
  | cons eff tl ih =>
    have hstep := foldl_push_default eff.await s
    obtain ⟨g1, g2, g3⟩ :=
      ih (eff.await.foldl (fun s event => s.push event QueueKind.default) s)
    refine ⟨?_, ?_, ?_⟩
    · rw [process_effects, List.foldl_cons, ← process_effects, g1, hstep.1]
      simp
    · intro k hk
      rw [process_effects, List.foldl_cons, ← process_effects, g2 k hk, hstep.2.1 k hk]
    · rw [process_effects, List.foldl_cons, ← process_effects, g3, hstep.2.2]

/-- The steady-state loop of `run` never returns, whatever the reactor,
the scheduler contents and the fuel: its body has no exit. -/
theorem run_loop_result {St Ev Err : Type} (R : Reactor St Ev Err)
    (weights : QueueKind → Nat) (warns : Nat) :
    ∀ (fuel : Nat) (st : St) (sched : Scheduler Ev) (pops : Nat) (disp : List Ev),
      (run_loop R weights warns fuel st sched pops disp).result = none := by
  intro fuel
  induction fuel with
  | zero => intro st sched pops disp; rfl
  | succ n ih =>
    intro st sched pops disp
    cases hp : Scheduler.pop weights sched with
    | none => simp [run_loop, hp]
    | some r =>
      obtain ⟨event, q, sched'⟩ := r
      simp only [run_loop, hp]
      exact ih _ _ _ _

/-- The loop passes the startup warning count through unchanged. -/
theorem run_loop_warns {St Ev Err : Type} (R : Reactor St Ev Err)
    (weights : QueueKind → Nat) (warns : Nat) :
    ∀ (fuel : Nat) (st : St) (sched : Scheduler Ev) (pops : Nat) (disp : List Ev),
      (run_loop R weights warns fuel st sched pops disp).oversizeWarnings = warns := by
  intro fuel
  induction fuel with
  | zero => intro st sched pops disp; rfl
  | succ n ih =>
    intro st sched pops disp
    cases hp : Scheduler.pop weights sched with
    | none => simp [run_loop, hp]
    | some r =>
      obtain ⟨event, q, sched'⟩ := r
      simp only [run_loop, hp]
      exact ih _ _ _ _

/-- When construction succeeds, `run` never returns: it stays in the loop. -/
theorem run_result_of_ok {St Ev Err : Type} (R : Reactor St Ev Err)
    {p : St × List (Effect Ev)} (hnew : R.new = .ok p)
    (event_size usize_size : Nat) (weights : QueueKind → Nat) (fuel : Nat) :
    (run R event_size usize_size weights fuel).result = none := by
  simp only [run, hnew]
  exact run_loop_result R weights _ fuel _ _ 0 []

/-- `run` emits exactly the startup count of oversize warnings, on both the
error and the loop path. -/
theorem run_warns {St Ev Err : Type} (R : Reactor St Ev Err)
    (event_size usize_size : Nat) (weights : QueueKind → Nat) (fuel : Nat) :
    (run R event_size usize_size weights fuel).oversizeWarnings
      = oversize_warning_count event_size usize_size := by
  cases hnew : R.new with
  | error e => simp [run, hnew]
  | ok p =>
    simp only [run, hnew]
    exact run_loop_warns R weights _ fuel _ _ 0 []

/-- Awaiting a wrapped effect maps the wrapping function over the awaited
events of the inner effect. -/
theorem wrap_effect_await {Ev REv : Type} (f : Ev → REv) (e : Effect Ev) :
    (wrap_effect f e).await = e.await.map f := by
  induction e with
  | done evs => rfl
  | later e ih => simpa [wrap_effect, Effect.await] using ih

/-- Wrapping adds no suspension point. -/
theorem wrap_effect_steps {Ev REv : Type} (f : Ev → REv) (e : Effect Ev) :
    (wrap_effect f e).steps = e.steps := by
  induction e with
  | done evs => rfl
  | later e ih => simpa [wrap_effect, Effect.steps] using ih

/-! ### Claim theorems -/

/-- C1 counterexample: for the concrete reactor `demoReactor`, whose
initial effect yields a shutdown event, the driver dispatches the shutdown
event, yet `run` has not returned (in particular has not returned `Ok`)
even with 100 loop iterations of fuel: the steady-state loop of `run` has
no exit. -/
theorem run_shutdown_counterexample :
    (run demoReactor 8 8 (fun _ => 1) 100).dispatched = [DemoEvent.shutdown]
    ∧ (run demoReactor 8 8 (fun _ => 1) 100).result = none := by
  exact ⟨rfl, rfl⟩

/-- C1 (amended): the steady-state loop of `run` never terminates — its
body contains no exit, for a shutdown event or any other — so whenever
`Reactor::new` succeeds, `run` never returns at all (a fortiori never
returns `Ok`), for every amount of fuel. -/
theorem run_never_returns_ok {St Ev Err : Type} (R : Reactor St Ev Err)
    (weights : QueueKind → Nat) (warns fuel pops : Nat) (st : St) (sched : Scheduler Ev)
    (disp : List Ev) (event_size usize_size : Nat) (p : St × List (Effect Ev)) :
    ((run_loop R weights warns fuel st sched pops disp).result = none)
    ∧ (R.new = .ok p → (run R event_size usize_size weights fuel).result = none) :=
  ⟨run_loop_result R weights warns fuel st sched pops disp,
   fun hnew => run_result_of_ok R hnew event_size usize_size weights fuel⟩

/-- Witness for C1 (amended), at the concrete `demoReactor`. -/
theorem run_never_returns_ok_witness :
    (run demoReactor 8 8 (fun _ => 1) 5).result = none :=
  (run_never_returns_ok demoReactor (fun _ => 1) 0 5 0 () (Scheduler.new (fun _ => 1)) [] 8 8
      ((), [Effect.done [DemoEvent.shutdown]])).2 rfl

/-- C2: `process_effects` — used by the driver both for the initial
effects and for the effects returned by `dispatch_event` — pushes every
event produced by awaiting any of the effects onto the scheduler under the
default queue-kind (the default queue receives exactly the awaited events
of all effects, in order), and no other queue receives anything. -/
theorem process_effects_default_queue_only {Ev : Type} (s : Scheduler Ev)
    (effects : List (Effect Ev)) :
    ((process_effects s effects).queues QueueKind.default
        = s.queues QueueKind.default ++ (effects.map Effect.await).flatten)
    ∧ (∀ k, k ≠ QueueKind.default → (process_effects s effects).queues k = s.queues k) :=
  ⟨(process_effects_spec s effects).1, (process_effects_spec s effects).2.1⟩

/-- Witness for C2 at two concrete effects: the non-default `api` queue
stays empty. -/
theorem process_effects_default_queue_only_witness :
    (process_effects (Scheduler.new (fun _ => 1) : Scheduler Nat)
        [Effect.done [1, 2], Effect.later (Effect.done [3])]).queues QueueKind.api = [] :=
  ((process_effects_default_queue_only (Scheduler.new (fun _ => 1))
      [Effect.done [1, 2], Effect.later (Effect.done [3])]).2 QueueKind.api
    (by decide)).trans rfl

/-- C3: `run` emits the oversize warning exactly once iff the static event
size exceeds 16 machine words (16 times the byte size of `usize`); a
256-byte event type on a 64-bit machine (usize of 8 bytes) triggers it
exactly once, and an event type of exactly 16 machine words triggers no
warning. -/
theorem run_oversize_warning_iff {St Ev Err : Type} (R : Reactor St Ev Err)
    (weights : QueueKind → Nat) (fuel event_size usize_size : Nat) :
    ((run R event_size usize_size weights fuel).oversizeWarnings = 1
        ↔ 16 * usize_size < event_size)
    ∧ ((run R event_size usize_size weights fuel).oversizeWarnings = 0
        ↔ event_size ≤ 16 * usize_size)
    ∧ (run R 256 8 weights fuel).oversizeWarnings = 1
    ∧ (run R (16 * usize_size) usize_size weights fuel).oversizeWarnings = 0 := by
  simp only [run_warns, oversize_warning_count]
  refine ⟨?_, ?_, ?_, ?_⟩ <;> split <;> omega

/-- C4: `run` returns an error iff `Reactor::new` returns an error; the
error is propagated unchanged, and in that case the driver pops no event
and dispatches nothing — it never enters the steady-state loop. -/
theorem run_error_iff_new_error {St Ev Err : Type} (R : Reactor St Ev Err)
    (event_size usize_size : Nat) (weights : QueueKind → Nat) (fuel : Nat) (e : Err) :
    ((run R event_size usize_size weights fuel).result = some (.error e) ↔ R.new = .error e)
    ∧ (R.new = .error e →
        (run R event_size usize_size weights fuel).pops = 0
        ∧ (run R event_size usize_size weights fuel).dispatched = []) := by
  constructor
  · constructor
    · intro hres
      cases hnew : R.new with
      | error e' =>
        simp only [run, hnew] at hres
        obtain rfl : e' = e := by simpa using hres
        rfl
      | ok p =>
        rw [run_result_of_ok R hnew] at hres
        simp at hres
    · intro hnew
      simp [run, hnew]
  · intro hnew
    constructor <;> simp [run, hnew]

/-- Witness for C4, at a concrete reactor whose construction fails. -/
theorem run_error_iff_new_error_witness :
    (run (⟨.error "storage", fun s _ => (s, [])⟩ : Reactor Unit Nat String)
        8 8 (fun _ => 1) 3).pops = 0 :=
  ((run_error_iff_new_error (⟨.error "storage", fun s _ => (s, [])⟩ : Reactor Unit Nat String)
      8 8 (fun _ => 1) 3 "storage").2 rfl).1

/-- C5: wrapping is structural — `wrap_effect f e` yields exactly the
events of `e` mapped through `f` (same number, same order, and no change
to the suspension structure), and `wrap_effects f effects` produces one
wrapped effect per input effect, in the same order. -/
theorem wrap_effect_structural {Ev REv : Type} (f : Ev → REv) (e : Effect Ev)
    (effects : List (Effect Ev)) :
    ((wrap_effect f e).await = e.await.map f)
    ∧ ((wrap_effect f e).await.length = e.await.length)
    ∧ ((wrap_effect f e).steps = e.steps)
    ∧ ((wrap_effects f effects).length = effects.length)
    ∧ (∀ i : Nat, (wrap_effects f effects)[i]? = (effects[i]?).map (wrap_effect f)) := by
  refine ⟨wrap_effect_await f e, ?_, wrap_effect_steps f e, ?_, ?_⟩
  · rw [wrap_effect_await]
    exact List.length_map _ _
  · exact List.length_map _ _
  · intro i
    simp [wrap_effects]

/-- C6: wrapping with the identity mapping yields the same event
collection. -/
theorem wrap_effect_identity {Ev : Type} (e : Effect Ev) :
    (wrap_effect id e).await = e.await := by
  rw [wrap_effect_await]
  exact List.map_id _

/-- C7: wrapping composes — wrapping with `f` and then `g` yields the same
event collection as wrapping once with `g ∘ f`. -/
theorem wrap_effect_composition {Ev MEv REv : Type} (f : Ev → MEv) (g : MEv → REv)
    (e : Effect Ev) :
    (wrap_effect g (wrap_effect f e)).await = (wrap_effect (g ∘ f) e).await := by
  simp [wrap_effect_await, List.map_map]

/-- C8: `EventQueueHandle.schedule` pushes exactly one event — the given
event converted into the reactor-wide event type — onto the referenced
scheduler under the given kind: that kind's queue gains exactly the
converted event at its end, every other queue, the credits, and every
other scheduler in the world are unchanged.  Cloning a handle yields the
same handle, so a duplicate's `schedule` pushes onto the very same
scheduler. -/
theorem schedule_pushes_one_event {Ev REv : Type} (h : EventQueueHandle)
    (conv : Ev → REv) (world : Nat → Scheduler REv) (event : Ev) (kind : QueueKind) :
    (((h.schedule conv world event kind) h.addr).queues kind
        = (world h.addr).queues kind ++ [conv event])
    ∧ (∀ k, k ≠ kind →
        ((h.schedule conv world event kind) h.addr).queues k = (world h.addr).queues k)
    ∧ ((h.schedule conv world event kind) h.addr).credits = (world h.addr).credits
    ∧ (∀ a, a ≠ h.addr → (h.schedule conv world event kind) a = world a)
    ∧ h.clone = h
    ∧ (h.clone).schedule conv world event kind = h.schedule conv world event kind := by
  refine ⟨?_, ?_, ?_, ?_, rfl, rfl⟩
  · simp [EventQueueHandle.schedule, Scheduler.push_queues_self]
  · intro k hk
    simp [EventQueueHandle.schedule, Scheduler.push_queues_ne _ _ hk]
  · simp [EventQueueHandle.schedule, Scheduler.push_credits]
  · intro a ha
    simp [EventQueueHandle.schedule, Function.update_noteq ha]

/-- Witness for C8, at a concrete handle and world: a queue of another
kind, and the scheduler at another address, are untouched. -/
theorem schedule_pushes_one_event_witness :
    ((((EventQueueHandle.new 0).schedule (fun n : Nat => n)
        (fun _ => Scheduler.new (fun _ => 1)) 5 QueueKind.api) 0).queues QueueKind.regular
      = [])
    ∧ (((EventQueueHandle.new 0).schedule (fun n : Nat => n)
        (fun _ => Scheduler.new (fun _ => 1)) 5 QueueKind.api) 1
      = Scheduler.new (fun _ => 1)) :=
  ⟨((schedule_pushes_one_event (EventQueueHandle.new 0) (fun n : Nat => n)
        (fun _ => Scheduler.new (fun _ => 1)) 5 QueueKind.api).2.1 QueueKind.regular
      (by decide)).trans rfl,
   (schedule_pushes_one_event (EventQueueHandle.new 0) (fun n : Nat => n)
        (fun _ => Scheduler.new (fun _ => 1)) 5 QueueKind.api).2.2.2.1 1 (by decide)⟩

/-- C9: with a determined OS page size (a non-negative `sysconf` value),
`check_sizes` warns about `max_block_store_size` iff it is not a whole
multiple of the page size, and likewise and independently for
`max_deploy_store_size`. -/
theorem check_sizes_warning_iff_not_multiple (cfg : StorageConfig) (v : Int)
    (hv : 0 ≤ v) :
    (SizeWarning.maxBlockStoreSize ∈ cfg.check_sizes v
        ↔ ¬ v.toNat ∣ cfg.max_block_store_size)
    ∧ (SizeWarning.maxDeployStoreSize ∈ cfg.check_sizes v
        ↔ ¬ v.toNat ∣ cfg.max_deploy_store_size)
    ∧ get_page_size v = .ok v.toNat := by
  have hv' : ¬ v < 0 := not_lt.mpr hv
  refine ⟨?_, ?_, by simp [get_page_size, hv']⟩ <;>
    · simp only [StorageConfig.check_sizes, get_page_size, if_neg hv',
        Nat.dvd_iff_mod_eq_zero]
      split <;> split <;> simp_all

/-- Witness for C9: a deploy-store size of 4097 with page size 4096 is
flagged, while a block-store size of 8192 is not. -/
theorem check_sizes_warning_iff_not_multiple_witness :
    SizeWarning.maxDeployStoreSize ∈ StorageConfig.check_sizes ⟨"", 8192, 4097⟩ 4096 :=
  (check_sizes_warning_iff_not_multiple ⟨"", 8192, 4097⟩ 4096 (by decide)).2.1.mpr
    (by decide)

/-- C10: when `sysconf` reports failure (a negative value),
`get_page_size` returns an error, `check_sizes` substitutes a page size of
1, and therefore emits no warning for any configuration. -/
theorem check_sizes_empty_of_page_size_error (cfg : StorageConfig) (v : Int)
    (hv : v < 0) :
    get_page_size v = .error () ∧ cfg.check_sizes v = [] := by
  constructor
  · simp [get_page_size, hv]
  · simp [StorageConfig.check_sizes, get_page_size, hv, Nat.mod_one]

/-- Witness for C10, at a concrete configuration and `sysconf` value −1. -/
theorem check_sizes_empty_of_page_size_error_witness :
    StorageConfig.check_sizes ⟨"", 123, 456⟩ (-1) = [] :=
  (check_sizes_empty_of_page_size_error ⟨"", 123, 456⟩ (-1) (by decide)).2

end CasperNode
